import Mathlib

/-!
Verification of the resilience layer of the Mini-RAG E2E test harness.

The development shallowly embeds the polling, readiness-probing,
selector-resolution, recoverable-action and dialog-handling logic of the
repository (DashboardPage, ChatComponent, global-setup, user-journey specs)
as executable Lean functions, and proves the behavioural properties stated
in the specification about them.  Time (sleeps, timeouts) is not modelled;
loops are modelled by structural recursion on the remaining attempt budget,
and JavaScript numbers produced by `parseInt` are modelled as `Option Int`
with `none` standing for `NaN`.
-/

namespace MiniRag

/-- Characters treated as leading whitespace by JavaScript `parseInt`. -/
def jsWhitespace (c : Char) : Bool :=
  c = ' ' || c = '\t' || c = '\n' || c = '\r' || c = '\x0b' || c = '\x0c'

/-- Value of a decimal digit character, if it is one (48 is the code of
the zero digit). -/
def decDigitVal (c : Char) : Option Nat :=
  if c.isDigit then some (c.toNat - 48) else none

/-- Value of a hexadecimal digit character, if it is one; letters are
folded to lower case first (97 is the code of the letter a, so subtracting
87 maps it to the value 10). -/
def hexDigitVal (c : Char) : Option Nat :=
  let l := c.toLower
  if c.isDigit then
    some (c.toNat - 48)
  else if 'a' ≤ l && l ≤ 'f' then
    some (l.toNat - 87)
  else
    none

/-- Accumulate the longest leading digit run (JavaScript `parseInt` ignores
trailing non-digit characters). -/
def parseDigitsAux (digit : Char → Option Nat) (base : Nat) : List Char → Nat → Nat
  | [], acc => acc
  | c :: cs, acc =>
    match digit c with
    | some d => parseDigitsAux digit base cs (acc * base + d)
    | none => acc

/-- Parse a leading digit run; `none` when the first character is not a digit
(JavaScript `parseInt` then yields `NaN`). -/
def parseDigits (digit : Char → Option Nat) (base : Nat) (cs : List Char) : Option Nat :=
  match cs with
  | [] => none
  | c :: _ =>
    match digit c with
    | some _ => some (parseDigitsAux digit base cs 0)
    | none => none

/-- Unsigned part of JavaScript `parseInt` with no radix argument: a `0x`/`0X`
prefix selects base 16, otherwise base 10. -/
def jsParseIntBody (cs : List Char) : Option Nat :=
  match cs with
  | '0' :: x :: rest =>
    if x = 'x' || x = 'X' then parseDigits hexDigitVal 16 rest
    else parseDigits decDigitVal 10 ('0' :: x :: rest)
  | _ => parseDigits decDigitVal 10 cs

/-- JavaScript `parseInt(s)` (no radix argument): skip leading whitespace,
optional sign, then a `0x` hex or decimal digit run; `none` models `NaN`. -/
def jsParseInt (s : String) : Option Int :=
  match s.toList.dropWhile jsWhitespace with
  | '-' :: rest => (jsParseIntBody rest).map (fun n => -(n : Int))
  | '+' :: rest => (jsParseIntBody rest).map (fun n => (n : Int))
  | cs => (jsParseIntBody cs).map (fun n => (n : Int))

/-- Playwright `textContent()` yields a string or `null`; passing `null` to
`parseInt` coerces it to the string `"null"`. -/
def jsTextToString (t : Option String) : String :=
  t.getD "null"

/-- JavaScript `x || 0` applied to a `parseInt` result: `NaN` (and `0`
itself, being falsy) become `0`. -/
def jsOrZero (x : Option Int) : Int :=
  match x with
  | some n => if n = 0 then 0 else n
  | none => 0

/-- DashboardPage.getDocumentCount: `parseInt(text) || 0` over the text
content of the `#docCount` element (`text = none` models a null
textContent). -/
def getDocumentCount (text : Option String) : Int :=
  jsOrZero (jsParseInt (jsTextToString text))

/-- DashboardPage.getChunkCount: `parseInt(text) || 0` over the text content
of the `#chunkCount` element. -/
def getChunkCount (text : Option String) : Int :=
  jsOrZero (jsParseInt (jsTextToString text))

/-- Outcome of one `waitForDocumentCount` call: the returned count or thrown
error message, with the number of `getDocumentCount` reads and of
wait-and-reload refresh cycles performed. -/
structure PollResult where
  result : Except String Int
  reads : Nat
  refreshes : Nat
deriving Repr

/-- Error message thrown by DashboardPage.waitForDocumentCount on
exhaustion. -/
def wfdcMsg (expected : Int) (maxAttempts : Nat) : String :=
  "Document count did not reach " ++ toString expected ++ " after " ++
    toString maxAttempts ++ " attempts"

/-- The `for (attempt = 1; attempt <= maxAttempts; attempt++)` loop of
DashboardPage.waitForDocumentCount.  The first argument is the remaining
number of iterations (`maxAttempts - attempt + 1`); `readText attempt` is
the text observed by `getDocumentCount` on the given attempt.  A refresh
(waitForTimeout + reload + waitForLoadState) happens after a failed attempt
only while `attempt < maxAttempts`. -/
def wfdcLoop (readText : Nat → Option String) (expected : Int) (maxAttempts : Nat) :
    Nat → Nat → Nat → Nat → PollResult
  | 0, _attempt, reads, refreshes =>
    ⟨.error (wfdcMsg expected maxAttempts), reads, refreshes⟩
  | fuel + 1, attempt, reads, refreshes =>
    if getDocumentCount (readText attempt) = expected then
      ⟨.ok (getDocumentCount (readText attempt)), reads + 1, refreshes⟩
    else if fuel = 0 then
      ⟨.error (wfdcMsg expected maxAttempts), reads + 1, refreshes⟩
    else
      wfdcLoop readText expected maxAttempts fuel (attempt + 1) (reads + 1) (refreshes + 1)

/-- DashboardPage.waitForDocumentCount(expectedCount, maxAttempts, waitTime):
attempts are numbered from 1; the waitTime parameter only affects real time
and is not modelled. -/
def waitForDocumentCount (readText : Nat → Option String) (expected : Int)
    (maxAttempts : Nat) : PollResult :=
  wfdcLoop readText expected maxAttempts maxAttempts 1 0 0

example : waitForDocumentCount (fun _ => some "7") 0 3 =
    ⟨.error (wfdcMsg 0 3), 3, 2⟩ := by rfl

example : waitForDocumentCount (fun i => if i = 1 then some "3" else some "0") 0 5 =
    ⟨.ok 0, 2, 1⟩ := by rfl

example : jsParseInt "  42abc" = some 42 := by rfl

example : jsParseInt "0x1A" = some 26 := by rfl

example : jsParseInt "abc" = none := by rfl

example : getDocumentCount none = 0 := by rfl

example : getDocumentCount (some "-12") = -12 := by rfl

/-- Observable outcome of one attempt of waitForNonZeroDocumentCount: the
primary `#docCount` element is visible with the given text content, or the
`Documents Indexed` fallback locator finds a numeric text, or neither is
visible (the stored value and number are then left unchanged). -/
inductive CountRead where
  | visible (text : Option String)
  | fallbackText (text : Option String)
  | notFound
deriving Repr

/-- Outcome of one `waitForNonZeroDocumentCount` call: the value returned
(`ok (some n)` a number, `ok none` the JavaScript `NaN`) or the thrown error
message, with the counts of textContent reads, page refreshes, and loop
attempts. -/
structure NZPollResult where
  result : Except String (Option Int)
  reads : Nat
  refreshes : Nat
  attempts : Nat
deriving Repr

/-- Error message thrown by DashboardPage.waitForNonZeroDocumentCount on
exhaustion. -/
def wfnzMsg (maxAttempts : Nat) : String :=
  "Document count did not become non-zero after " ++ toString maxAttempts ++ " attempts"

/-- Code after the while loop of waitForNonZeroDocumentCount: throw when the
parsed count is still `=== 0`, otherwise return it (which can be `NaN`). -/
def wfnzFinish (maxAttempts : Nat) (num : Option Int)
    (attempts reads refreshes : Nat) : NZPollResult :=
  if num = some 0 then ⟨.error (wfnzMsg maxAttempts), reads, refreshes, attempts⟩
  else ⟨.ok num, reads, refreshes, attempts⟩

/-- Body of one attempt of waitForNonZeroDocumentCount: the updated
`documentCountValue`, the updated `indexedCountNum`, and the number of
textContent reads performed (0 when neither locator matched and both stay
unchanged). -/
def wfnzStep : CountRead → Option String → Option Int → Option String × Option Int × Nat
  | .visible t, _, _ => (t, jsParseInt (jsTextToString t), 1)
  | .fallbackText t, _, _ => (t, jsParseInt (jsTextToString t), 1)
  | .notFound, value, num => (value, num, 0)

/-- The `while (indexedCountNum === 0 && attempts < maxAttempts)` loop of
DashboardPage.waitForNonZeroDocumentCount.  The first numeric argument is
the remaining attempt budget `maxAttempts - attempts`; `read i` is what
attempt number `i` observes.  `value`/`num` carry `documentCountValue` and
`indexedCountNum` across iterations (`num = none` models `NaN`, for which
`=== 0` is false).  A refresh happens when the freshly parsed count is still
`=== 0` and attempts remain. -/
def wfnzLoop (read : Nat → CountRead) (maxAttempts : Nat) :
    Nat → Option String → Option Int → Nat → Nat → Nat → NZPollResult
  | 0, _value, num, attempts, reads, refreshes =>
    wfnzFinish maxAttempts num attempts reads refreshes
  | fuel + 1, value, num, attempts, reads, refreshes =>
    if num = some 0 then
      let s := wfnzStep (read (attempts + 1)) value num
      if s.2.1 = some 0 ∧ 0 < fuel then
        wfnzLoop read maxAttempts fuel s.1 s.2.1 (attempts + 1) (reads + s.2.2) (refreshes + 1)
      else
        wfnzLoop read maxAttempts fuel s.1 s.2.1 (attempts + 1) (reads + s.2.2) refreshes
    else wfnzFinish maxAttempts num attempts reads refreshes

/-- DashboardPage.waitForNonZeroDocumentCount(maxAttempts, waitTime):
`documentCountValue` starts as `"0"`, `indexedCountNum` as `0`, `attempts`
as `0`; waitTime only affects real time and is not modelled. -/
def waitForNonZeroDocumentCount (read : Nat → CountRead) (maxAttempts : Nat) :
    NZPollResult :=
  wfnzLoop read maxAttempts maxAttempts (some "0") (some 0) 0 0 0

example : waitForNonZeroDocumentCount (fun _ => .visible (some "0")) 3 =
    ⟨.error (wfnzMsg 3), 3, 2, 3⟩ := by rfl

example : waitForNonZeroDocumentCount
    (fun i => .visible (if i = 2 then some "5" else some "0")) 4 =
    ⟨.ok (some 5), 2, 1, 2⟩ := by rfl

/-- Result of one probe iteration of the global-setup readiness loop:
`page.goto('/health')` returns an ok response, returns a non-ok response
without throwing, or throws (timeout, connection refused, ...). -/
inductive ProbeResult where
  | okResp
  | badResp
  | thrown (msg : String)
deriving Repr

/-- State of the global-setup readiness phase after simulating a number of
loop iterations: the application was found ready, the loop exited with the
budget exhausted and setup threw, or the loop is still running with the
given `retries` counter and backoff delay. `probes` counts `page.goto`
invocations. -/
inductive SetupOutcome where
  | ready (probes : Nat)
  | failedStart (probes : Nat)
  | running (retries : Nat) (delay : ℚ) (probes : Nat)
deriving Repr

/-- The `while (retries < maxRetries)` readiness loop of globalSetup
(auth setup file), simulated for a given number of iterations (`fuel`).
On an ok response it breaks out and setup proceeds (`ready`); on a thrown
error it sleeps, multiplies the delay by 1.5 capped at 15000 ms, and
increments `retries`; on a non-ok response that does not throw it does
nothing to the state.  After the loop, `retries >= maxRetries` throws
(`failedStart`). -/
def globalSetupLoop (probe : Nat → ProbeResult) (maxRetries : Nat) :
    Nat → Nat → ℚ → Nat → SetupOutcome
  | 0, retries, delay, probes => .running retries delay probes
  | fuel + 1, retries, delay, probes =>
    if retries < maxRetries then
      match probe probes with
      | .okResp => .ready (probes + 1)
      | .badResp => globalSetupLoop probe maxRetries fuel retries delay (probes + 1)
      | .thrown _ =>
        globalSetupLoop probe maxRetries fuel (retries + 1)
          (min (delay * (3 / 2)) 15000) (probes + 1)
    else .failedStart probes

/-- The readiness phase of globalSetup with its literal constants:
maxRetries = 12, initial delay 2500 ms. -/
def globalSetupReadiness (probe : Nat → ProbeResult) (fuel : Nat) : SetupOutcome :=
  globalSetupLoop probe 12 fuel 0 2500 0

example : globalSetupReadiness (fun _ => .okResp) 5 = .ready 1 := by rfl

example : globalSetupReadiness (fun _ => .badResp) 20 = .running 0 2500 20 := by rfl

/-- The backoff delay sequence of the readiness loop:
`delay` starts at 2500 and becomes `min(delay * 1.5, 15000)` after each
failed (throwing) attempt. -/
def proberDelay : Nat → ℚ
  | 0 => 2500
  | n + 1 => min (proberDelay n * (3 / 2)) 15000

example : proberDelay 3 = 16875 / 2 := by norm_num [proberDelay]

example : proberDelay 5 = 15000 := by norm_num [proberDelay]

/-- Outcome of probing one selector candidate: its target is currently
visible, not visible, or the visibility check threw (caught by
getAssistantAnswer, which then moves on to the next candidate). -/
inductive VisProbe where
  | visible
  | hidden
  | errored
deriving Repr, DecidableEq

/-- The ordered candidate selector list of ChatComponent.getAssistantAnswer. -/
def assistantAnswerSelectors : List String :=
  [".assistant p:first-of-type",
   ".message.assistant p:first-of-type",
   ".bubble.assistant p:first-of-type"]

/-- The `for (const selector of selectors)` loop shared by
ChatComponent.getAssistantAnswer and the strategy loops of
DashboardPage.loadSampleData: return the first candidate whose target is
visible, together with the number of candidates probed; hidden and erroring
candidates are skipped. -/
def firstVisibleLoop (probe : String → VisProbe) : List String → Option String × Nat
  | [] => (none, 0)
  | s :: rest =>
    match probe s with
    | .visible => (some s, 1)
    | _ =>
      let r := firstVisibleLoop probe rest
      (r.1, r.2 + 1)

/-- ChatComponent.getAssistantAnswer: resolve over its fixed candidate
list (`none` models the `return null` fall-through). -/
def getAssistantAnswer (probe : String → VisProbe) : Option String × Nat :=
  firstVisibleLoop probe assistantAnswerSelectors

/-- The `exactMatches` candidate list of strategy 1 of
DashboardPage.loadSampleData. -/
def exactMatchSelectors : List String :=
  ["text=/load sample data/i",
   "text=/sample data/i",
   "text=/load sample/i",
   "text=/load.*sample/i"]

/-- Strategy 1 of DashboardPage.loadSampleData: first visible candidate of
`exactMatches` wins. -/
def loadSampleFirstStrategy (probe : String → VisProbe) : Option String × Nat :=
  firstVisibleLoop probe exactMatchSelectors

/-- Boolean test that `pre` is a prefix of the second list. -/
def listStartsWith : List Char → List Char → Bool
  | [], _ => true
  | _ :: _, [] => false
  | a :: as, b :: bs => a = b && listStartsWith as bs

/-- Boolean substring test on character lists. -/
def listContainsSub (needle : List Char) : List Char → Bool
  | [] => needle.isEmpty
  | c :: cs => listStartsWith needle (c :: cs) || listContainsSub needle cs

/-- JavaScript `hay.includes(needle)`. -/
def strContains (hay needle : String) : Bool :=
  listContainsSub needle.toList hay.toList

example : strContains "Document count did not reach 0 after 3 attempts" "3" = true := by rfl

example : strContains "Document count did not reach 0 after 3 attempts" "7" = false := by rfl

/-- Error-message markers that the TC004 catch block treats as recoverable
(browser context closed, timeouts, selectOption failures). -/
def recoverableMarkers : List String :=
  ["Target page, context or browser has been closed",
   "Test timeout",
   "page.waitForTimeout",
   "locator.selectOption"]

/-- The recoverability classification of the TC004 catch block:
`error.message.includes(...)` over the four markers. -/
def isRecoverableMsg (msg : String) : Bool :=
  recoverableMarkers.any (fun m => strContains msg m)

/-- Outcome of processing one model in the TC004 per-model loop: the
confirmation was found (directly or via the select-value fallback), no
confirmation was found but nothing threw, or an error with the given
message was thrown. -/
inductive ModelOutcome where
  | success
  | noConfirm
  | thrown (msg : String)
deriving Repr

/-- Counters of the TC004 - Select Models per-model loop.  `resets` counts
recovery attempts (page reload plus selector re-resolution); `attempted`
counts models whose processing was started. -/
structure TC004State where
  successCount : Nat
  failureCount : Nat
  resets : Nat
  attempted : Nat
deriving Repr, DecidableEq

/-- The `for (let i = 0; i < models.length; i++)` loop of TC004 - Select
Models.  On a thrown error whose message matches a recoverable marker the
test reloads the page and re-resolves the selector (`resets + 1`) and, if
that recovery succeeds, continues with the next model, otherwise breaks out
of the loop; on any other thrown error it continues with the next model
without any reset. -/
def tc004Loop (outcome : Nat → ModelOutcome) (recoveryOk : Nat → Bool) :
    List Nat → TC004State → TC004State
  | [], st => st
  | i :: rest, st =>
    match outcome i with
    | .success =>
      tc004Loop outcome recoveryOk rest
        ⟨st.successCount + 1, st.failureCount, st.resets, st.attempted + 1⟩
    | .noConfirm =>
      tc004Loop outcome recoveryOk rest
        ⟨st.successCount, st.failureCount + 1, st.resets, st.attempted + 1⟩
    | .thrown msg =>
      if isRecoverableMsg msg then
        if recoveryOk i then
          tc004Loop outcome recoveryOk rest
            ⟨st.successCount, st.failureCount + 1, st.resets + 1, st.attempted + 1⟩
        else ⟨st.successCount, st.failureCount + 1, st.resets + 1, st.attempted + 1⟩
      else
        tc004Loop outcome recoveryOk rest
          ⟨st.successCount, st.failureCount + 1, st.resets, st.attempted + 1⟩

/-- TC004 - Select Models over a list of models: run the per-model loop
from zero counters, then throw an aggregate error iff `failureCount > 0`
(the Boolean component; the thrown message text with its percentage
formatting is not modelled). -/
def tc004Run (outcome : Nat → ModelOutcome) (recoveryOk : Nat → Bool)
    (models : List Nat) : Bool × TC004State :=
  let st := tc004Loop outcome recoveryOk models ⟨0, 0, 0, 0⟩
  (st.failureCount > 0, st)

/-- Dialog-handler registrations of a page: DashboardPage.clearIndex calls
`this.page.on('dialog', dialog => dialog.accept())` on every invocation, so
the page accumulates one more standing handler per call. -/
structure PageDialogs where
  handlers : Nat
deriving Repr, DecidableEq

/-- The `page.on('dialog', ...)` registration performed by
DashboardPage.clearIndex. -/
def registerClearIndexDialogHandler (p : PageDialogs) : PageDialogs :=
  ⟨p.handlers + 1⟩

/-- What a single confirmation prompt produces given the page's registered
handlers: how many `dialog.accept()` calls were attempted, how many took
effect, and whether the prompt was resolved. -/
structure PromptOutcome where
  acceptAttempts : Nat
  accepted : Nat
  resolved : Bool
deriving Repr, DecidableEq

/-- Modelled browser boundary (Playwright dialog semantics, spec section 5
and 6): every registered `dialog` handler fires on a prompt and calls
`dialog.accept()`; the dialog is accepted by the first call and later calls
reject as already handled; with no handler registered the prompt is
auto-dismissed.  The prompt is therefore always resolved. -/
def firePrompt (p : PageDialogs) : PromptOutcome :=
  ⟨p.handlers, min p.handlers 1, true⟩

/-- Text contents of the two dashboard counters. -/
structure DashboardTexts where
  docText : Option String
  chunkText : Option String
deriving Repr

/-- Steps 5 and 6 of TC001 - Clear Index as written in
user-journey.spec.js: both steps call
`userJourney.dashboardPage.waitForDocumentCount(0, 1)`, so both read the
document counter; the chunk counter text is never consulted. -/
def tc001VerifyCounts (texts : DashboardTexts) : PollResult × PollResult :=
  (waitForDocumentCount (fun _ => texts.docText) 0 1,
   waitForDocumentCount (fun _ => texts.docText) 0 1)

/-- ChatComponent.clickAskButton: check `isEnabled`; when disabled, log and
return false without clicking; otherwise click and return true.  The second
component counts click actions performed. -/
def clickAskButton (enabled : Bool) : Bool × Nat :=
  if !enabled then (false, 0) else (true, 1)

/-- ChatComponent.askQuestion: wait for load state, fill the question, call
clickAskButton and return its Boolean (waits and the fill are not
modelled beyond ordering). -/
def askQuestion (enabled : Bool) : Bool × Nat :=
  let clicked := clickAskButton enabled
  (clicked.1, clicked.2)

/-! Helper lemmas about the two polling loops. -/

lemma wfdcLoop_never (readText : Nat → Option String) (expected : Int) (maxAttempts : Nat)
    (hmiss : ∀ i, getDocumentCount (readText i) ≠ expected) :
    ∀ fuel attempt reads refreshes,
      wfdcLoop readText expected maxAttempts fuel attempt reads refreshes =
        ⟨.error (wfdcMsg expected maxAttempts), reads + fuel, refreshes + (fuel - 1)⟩ := by
  intro fuel
  induction fuel with
  | zero =>
    intro attempt reads refreshes
    simp [wfdcLoop]
  | succ n ih =>
    intro attempt reads refreshes
    simp only [wfdcLoop]
    rw [if_neg (hmiss attempt)]
    cases n with
    | zero => simp
    | succ m =>
      rw [if_neg (by omega : ¬ (m + 1 = 0))]
      rw [ih (attempt + 1) (reads + 1) (refreshes + 1)]
      congr 1 <;> omega

lemma wfdcLoop_hit (readText : Nat → Option String) (expected : Int) (maxAttempts : Nat) :
    ∀ d fuel attempt reads refreshes, d < fuel →
      (∀ i, attempt ≤ i → i < attempt + d → getDocumentCount (readText i) ≠ expected) →
      getDocumentCount (readText (attempt + d)) = expected →
      wfdcLoop readText expected maxAttempts fuel attempt reads refreshes =
        ⟨.ok expected, reads + (d + 1), refreshes + d⟩ := by
  intro d
  induction d with
  | zero =>
    intro fuel attempt reads refreshes hd _ hhit
    cases fuel with
    | zero => omega
    | succ n =>
      simp only [wfdcLoop]
      rw [Nat.add_zero] at hhit
      rw [if_pos hhit, hhit]
      simp
  | succ d ih =>
    intro fuel attempt reads refreshes hd hmiss hhit
    cases fuel with
    | zero => omega
    | succ n =>
      simp only [wfdcLoop]
      rw [if_neg (hmiss attempt (Nat.le_refl _) (by omega))]
      rw [if_neg (by omega : ¬ (n = 0))]
      rw [ih n (attempt + 1) (reads + 1) (refreshes + 1) (by omega)
        (fun i h1 h2 => hmiss i (by omega) (by omega))
        (by
          have e : attempt + 1 + d = attempt + (d + 1) := by omega
          rw [e]; exact hhit)]
      congr 1 <;> omega

lemma wfnzLoop_exit (read : Nat → CountRead) (maxAttempts : Nat)
    (fuel : Nat) (value : Option String) (num : Option Int)
    (attempts reads refreshes : Nat) (h : num ≠ some 0) :
    wfnzLoop read maxAttempts fuel value num attempts reads refreshes =
      wfnzFinish maxAttempts num attempts reads refreshes := by
  cases fuel with
  | zero => simp [wfnzLoop]
  | succ n =>
    simp only [wfnzLoop]
    rw [if_neg h]

lemma wfnzLoop_never (read : Nat → CountRead) (tRead : Nat → Option String)
    (maxAttempts : Nat) (hv : ∀ i, read i = .visible (tRead i))
    (hz : ∀ i, jsParseInt (jsTextToString (tRead i)) = some 0) :
    ∀ fuel value attempts reads refreshes,
      wfnzLoop read maxAttempts fuel value (some 0) attempts reads refreshes =
        ⟨.error (wfnzMsg maxAttempts), reads + fuel, refreshes + (fuel - 1), attempts + fuel⟩ := by
  intro fuel
  induction fuel with
  | zero =>
    intro value attempts reads refreshes
    simp [wfnzLoop, wfnzFinish]
  | succ n ih =>
    intro value attempts reads refreshes
    simp only [wfnzLoop, hv (attempts + 1), wfnzStep, hz (attempts + 1), if_true]
    cases n with
    | zero =>
      rw [if_neg (by simp)]
      simp [wfnzLoop, wfnzFinish]
    | succ m =>
      rw [if_pos ⟨trivial, by omega⟩]
      rw [ih (tRead (attempts + 1)) (attempts + 1) (reads + 1) (refreshes + 1)]
      congr 1 <;> omega

lemma wfnzLoop_hit (read : Nat → CountRead) (tRead : Nat → Option String)
    (maxAttempts : Nat) (v : Int) (hv0 : v ≠ 0)
    (hv : ∀ i, read i = .visible (tRead i)) :
    ∀ d fuel value attempts reads refreshes, d < fuel →
      (∀ i, attempts + 1 ≤ i → i < attempts + 1 + d →
        jsParseInt (jsTextToString (tRead i)) = some 0) →
      jsParseInt (jsTextToString (tRead (attempts + 1 + d))) = some v →
      wfnzLoop read maxAttempts fuel value (some 0) attempts reads refreshes =
        ⟨.ok (some v), reads + (d + 1), refreshes + d, attempts + (d + 1)⟩ := by
  intro d
  induction d with
  | zero =>
    intro fuel value attempts reads refreshes hd _ hhit
    cases fuel with
    | zero => omega
    | succ n =>
      rw [Nat.add_zero] at hhit
      simp only [wfnzLoop, hv (attempts + 1), wfnzStep, hhit, if_true]
      rw [if_neg (by simp [hv0])]
      rw [wfnzLoop_exit read maxAttempts n (tRead (attempts + 1)) (some v)
        (attempts + 1) (reads + 1) refreshes (by simp [hv0])]
      rw [wfnzFinish, if_neg (by simp [hv0])]
      simp
  | succ d ih =>
    intro fuel value attempts reads refreshes hd hmiss hhit
    cases fuel with
    | zero => omega
    | succ n =>
      simp only [wfnzLoop, hv (attempts + 1), wfnzStep,
        hmiss (attempts + 1) (Nat.le_refl _) (by omega), if_true]
      rw [if_pos ⟨trivial, by omega⟩]
      rw [ih n (tRead (attempts + 1)) (attempts + 1) (reads + 1) (refreshes + 1) (by omega)
        (fun i h1 h2 => hmiss i (by omega) (by omega))
        (by
          have e : attempts + 1 + 1 + d = attempts + 1 + (d + 1) := by omega
          rw [e]; exact hhit)]
      congr 1 <;> omega

/-- C1: the claim as frozen asserts that the exhaustion failure names the
final observed value; the thrown message of waitForDocumentCount names the
expected value and the attempt count only.  With a counter text of "7" and
expected count 0, the final observed value is 7, the poller throws, and the
thrown message does not mention 7. -/
theorem poller_exhaustion_message_counterexample :
    (waitForDocumentCount (fun _ => some "7") 0 3).result = .error (wfdcMsg 0 3) ∧
    getDocumentCount (some "7") = 7 ∧
    strContains (wfdcMsg 0 3) "7" = false ∧
    strContains (wfdcMsg 0 3) "3" = true := by
  exact ⟨rfl, rfl, rfl, rfl⟩

/-- C1 (amended): with a read that never satisfies the predicate, both
pollers perform exactly N reads and N−1 refreshes and terminate by throwing
an error naming the target condition and the attempt count (never passing
silently); the final observed value appears only in logs, not in the thrown
message. -/
theorem poller_exhaustion_amended (readText tRead : Nat → Option String)
    (expected : Int) (N : Nat) (_hN : 1 ≤ N)
    (hmiss : ∀ i, getDocumentCount (readText i) ≠ expected)
    (hz : ∀ i, jsParseInt (jsTextToString (tRead i)) = some 0) :
    waitForDocumentCount readText expected N =
      ⟨.error (wfdcMsg expected N), N, N - 1⟩ ∧
    waitForNonZeroDocumentCount (fun i => .visible (tRead i)) N =
      ⟨.error (wfnzMsg N), N, N - 1, N⟩ := by
  constructor
  · rw [waitForDocumentCount, wfdcLoop_never readText expected N hmiss N 1 0 0]
    simp
  · rw [waitForNonZeroDocumentCount,
      wfnzLoop_never (fun i => .visible (tRead i)) tRead N (fun _ => rfl) hz N (some "0") 0 0 0]
    simp

/-- Witness for C1 (amended) at concrete inputs. -/
theorem poller_exhaustion_amended_witness :
    waitForDocumentCount (fun _ => some "7") 0 2 = ⟨.error (wfdcMsg 0 2), 2, 1⟩ ∧
    waitForNonZeroDocumentCount (fun _ => .visible (some "0")) 2 =
      ⟨.error (wfnzMsg 2), 2, 1, 2⟩ := by
  refine poller_exhaustion_amended (fun _ => some "7") (fun _ => some "0") 0 2
    (by omega) ?_ ?_
  · intro i
    show getDocumentCount (some "7") ≠ 0
    decide
  · intro i
    rfl

/-- C3: with a read first satisfying the predicate on attempt k ≤ N, both
pollers return success after exactly k reads, having performed exactly k−1
refresh cycles (in particular no refresh after the satisfying read). -/
theorem poller_first_hit_reads_refreshes (readText tRead : Nat → Option String)
    (expected v : Int) (N k : Nat) (hv0 : v ≠ 0) (hk1 : 1 ≤ k) (hkN : k ≤ N)
    (hmiss : ∀ i, 1 ≤ i → i < k → getDocumentCount (readText i) ≠ expected)
    (hhit : getDocumentCount (readText k) = expected)
    (hzmiss : ∀ i, 1 ≤ i → i < k → jsParseInt (jsTextToString (tRead i)) = some 0)
    (hzhit : jsParseInt (jsTextToString (tRead k)) = some v) :
    waitForDocumentCount readText expected N = ⟨.ok expected, k, k - 1⟩ ∧
    waitForNonZeroDocumentCount (fun i => .visible (tRead i)) N =
      ⟨.ok (some v), k, k - 1, k⟩ := by
  constructor
  · rw [waitForDocumentCount,
      wfdcLoop_hit readText expected N (k - 1) N 1 0 0 (by omega)
        (fun i h1 h2 => hmiss i h1 (by omega))
        (by
          have e : 1 + (k - 1) = k := by omega
          rw [e]; exact hhit)]
    congr 1 <;> omega
  · rw [waitForNonZeroDocumentCount,
      wfnzLoop_hit (fun i => .visible (tRead i)) tRead N v hv0 (fun _ => rfl)
        (k - 1) N (some "0") 0 0 0 (by omega)
        (fun i h1 h2 => hzmiss i (by omega) (by omega))
        (by
          have e : 0 + 1 + (k - 1) = k := by omega
          rw [e]; exact hzhit)]
    congr 1 <;> omega

/-- Witness for C3 at concrete inputs: first hit on attempt 2 of 3. -/
theorem poller_first_hit_witness :
    waitForDocumentCount (fun i => if i = 1 then some "9" else some "0") 0 3 =
      ⟨.ok 0, 2, 1⟩ ∧
    waitForNonZeroDocumentCount
      (fun i => .visible (if i = 1 then some "0" else some "4")) 3 =
      ⟨.ok (some 4), 2, 1, 2⟩ := by
  refine poller_first_hit_reads_refreshes
    (fun i => if i = 1 then some "9" else some "0")
    (fun i => if i = 1 then some "0" else some "4")
    0 4 3 2 (by omega) (by omega) (by omega) ?_ ?_ ?_ ?_
  · intro i h1 h2
    have e : i = 1 := by omega
    subst e
    show getDocumentCount (some "9") ≠ 0
    decide
  · show getDocumentCount (some "0") = 0
    decide
  · intro i h1 h2
    have e : i = 1 := by omega
    subst e
    rfl
  · rfl

/-! Readiness prober (global setup). -/

lemma globalSetupLoop_badResp :
    ∀ fuel probes, globalSetupLoop (fun _ => .badResp) 12 fuel 0 2500 probes =
      .running 0 2500 (probes + fuel) := by
  intro fuel
  induction fuel with
  | zero =>
    intro probes
    simp [globalSetupLoop]
  | succ n ih =>
    intro probes
    simp only [globalSetupLoop]
    rw [if_pos (by omega)]
    rw [ih (probes + 1)]
    congr 1
    omega

lemma globalSetupLoop_thrown (msg : String) (maxRetries : Nat) :
    ∀ fuel retries delay probes, maxRetries - retries < fuel →
      globalSetupLoop (fun _ => .thrown msg) maxRetries fuel retries delay probes =
        .failedStart (probes + (maxRetries - retries)) := by
  intro fuel
  induction fuel with
  | zero =>
    intro retries delay probes h
    omega
  | succ n ih =>
    intro retries delay probes h
    simp only [globalSetupLoop]
    by_cases hr : retries < maxRetries
    · rw [if_pos hr]
      rw [ih (retries + 1) (min (delay * (3 / 2)) 15000) (probes + 1) (by omega)]
      congr 1
      omega
    · rw [if_neg hr]
      congr 1
      omega

/-- C2: the readiness loop of globalSetup increments `retries` (and sleeps
and backs off) only inside the catch block.  A probe that keeps returning a
non-ok response without throwing therefore never changes the loop state: for
every number of simulated iterations the loop is still running with
retries = 0 and the initial delay, never reaching the ready or the
failed-start exit — the loop does not terminate, contradicting the claimed
bound of maxRetries = 12 probe invocations.  By contrast, a probe that
always throws does exhaust the budget after exactly 12 probes and aborts
setup. -/
theorem readiness_prober_nonok_nontermination (fuel : Nat) (msg : String) :
    globalSetupReadiness (fun _ => .badResp) fuel = .running 0 2500 fuel ∧
    (13 ≤ fuel →
      globalSetupReadiness (fun _ => .thrown msg) fuel = .failedStart 12) := by
  constructor
  · rw [globalSetupReadiness, globalSetupLoop_badResp fuel 0]
    congr 1
    omega
  · intro h
    rw [globalSetupReadiness, globalSetupLoop_thrown msg 12 fuel 0 2500 0 (by omega)]

/-- Witness for C2 at concrete inputs. -/
theorem readiness_prober_nonok_witness :
    globalSetupReadiness (fun _ => .badResp) 20 = .running 0 2500 20 ∧
    globalSetupReadiness (fun _ => .thrown "net::ERR_CONNECTION_REFUSED") 20 =
      .failedStart 12 :=
  ⟨(readiness_prober_nonok_nontermination 20 "net::ERR_CONNECTION_REFUSED").1,
   (readiness_prober_nonok_nontermination 20 "net::ERR_CONNECTION_REFUSED").2 (by omega)⟩

lemma proberDelay_pos : ∀ n, (0 : ℚ) < proberDelay n := by
  intro n
  induction n with
  | zero => norm_num [proberDelay]
  | succ n ih =>
    rw [proberDelay]
    apply lt_min
    · nlinarith
    · norm_num

lemma proberDelay_le : ∀ n, proberDelay n ≤ 15000 := by
  intro n
  cases n with
  | zero => norm_num [proberDelay]
  | succ m =>
    rw [proberDelay]
    exact min_le_right _ _

/-- C4: the backoff delay sequence delay(0) = 2500,
delay(n+1) = min(delay(n) * 1.5, 15000) is non-decreasing and every element
is bounded above by maxDelayMs = 15000. -/
theorem prober_delay_monotone_bounded (n : Nat) :
    proberDelay n ≤ proberDelay (n + 1) ∧ proberDelay n ≤ 15000 := by
  refine ⟨?_, proberDelay_le n⟩
  rw [proberDelay]
  apply le_min
  · nlinarith [proberDelay_pos n]
  · exact proberDelay_le n

/-! Selector resolution chains. -/

lemma firstVisibleLoop_cons_vis (probe : String → VisProbe) (s : String)
    (rest : List String) (h : probe s = .visible) :
    firstVisibleLoop probe (s :: rest) = (some s, 1) := by
  simp [firstVisibleLoop, h]

lemma firstVisibleLoop_cons_miss (probe : String → VisProbe) (s : String)
    (rest : List String) (h : probe s ≠ .visible) :
    firstVisibleLoop probe (s :: rest) =
      ((firstVisibleLoop probe rest).1, (firstVisibleLoop probe rest).2 + 1) := by
  cases hp : probe s with
  | visible => exact absurd hp h
  | hidden => simp [firstVisibleLoop, hp]
  | errored => simp [firstVisibleLoop, hp]

/-- C5: both candidate loops (getAssistantAnswer and loadSampleData
strategy 1) return the first candidate whose target is visible and stop
probing there: with the first candidate absent and the second present, the
result is the second candidate after exactly 2 probes, whatever the
remaining candidates would report. -/
theorem selector_chain_first_match (probe probeLS : String → VisProbe)
    (h1 : probe ".assistant p:first-of-type" ≠ .visible)
    (h2 : probe ".message.assistant p:first-of-type" = .visible)
    (g1 : probeLS "text=/load sample data/i" ≠ .visible)
    (g2 : probeLS "text=/sample data/i" = .visible) :
    getAssistantAnswer probe = (some ".message.assistant p:first-of-type", 2) ∧
    loadSampleFirstStrategy probeLS = (some "text=/sample data/i", 2) := by
  constructor
  · rw [getAssistantAnswer, assistantAnswerSelectors,
      firstVisibleLoop_cons_miss probe _ _ h1,
      firstVisibleLoop_cons_vis probe _ _ h2]
  · rw [loadSampleFirstStrategy, exactMatchSelectors,
      firstVisibleLoop_cons_miss probeLS _ _ g1,
      firstVisibleLoop_cons_vis probeLS _ _ g2]

/-- Witness for C5: candidate lists where the first target is absent (or
erroring) and all later targets are present. -/
theorem selector_chain_first_match_witness :
    getAssistantAnswer
      (fun s => if s = ".assistant p:first-of-type" then .hidden else .visible) =
      (some ".message.assistant p:first-of-type", 2) ∧
    loadSampleFirstStrategy
      (fun s => if s = "text=/load sample data/i" then .errored else .visible) =
      (some "text=/sample data/i", 2) := by
  refine selector_chain_first_match _ _ ?_ ?_ ?_ ?_
  · decide
  · decide
  · decide
  · decide

/-! Dialog auto-accept registration. -/

/-- C6 counterexample: DashboardPage.clearIndex installs a fresh `dialog`
handler on every invocation, so after two invocations a single confirmation
prompt fires two handlers and produces two `dialog.accept()` attempts,
contrary to the claim that a second registration never produces two accept
actions. -/
theorem dialog_double_registration_counterexample :
    (firePrompt (registerClearIndexDialogHandler
      (registerClearIndexDialogHandler ⟨0⟩))).acceptAttempts = 2 ∧
    ¬ (firePrompt (registerClearIndexDialogHandler
      (registerClearIndexDialogHandler ⟨0⟩))).acceptAttempts ≤ 1 := by
  decide

/-- C6 (amended): registering the clearIndex dialog handler twice makes a
single prompt produce two accept attempts, but the dialog is accepted
exactly once (the later attempt rejects as already handled) and the prompt
is always resolved — no double-accept effect and no deadlock. -/
theorem dialog_double_registration_amended (p : PageDialogs) :
    firePrompt (registerClearIndexDialogHandler (registerClearIndexDialogHandler p)) =
      ⟨p.handlers + 2, 1, true⟩ := by
  have h2 : p.handlers + 1 + 1 = p.handlers + 2 := by omega
  simp only [firePrompt, registerClearIndexDialogHandler, h2]
  have h : min (p.handlers + 2) 1 = 1 := by
    rw [Nat.min_def]
    split <;> omega
  rw [h]

/-! TC001 chunk-count verification. -/

/-- C7: step 6 of TC001 - Clear Index ("Verify chunks count is 0") calls
waitForDocumentCount(0, 1) again, i.e. it re-reads the document counter and
never consults the chunk counter.  On a dashboard whose document counter
shows "0" but whose chunk counter shows "5", both steps 5 and 6 pass, while
an actual chunk-counter poll for 0 would have failed. -/
theorem tc001_chunk_verification_bug :
    tc001VerifyCounts ⟨some "0", some "5"⟩ = (⟨.ok 0, 1, 0⟩, ⟨.ok 0, 1, 0⟩) ∧
    getChunkCount (some "5") = 5 ∧
    waitForDocumentCount (fun _ => some "5") 0 1 = ⟨.error (wfdcMsg 0 1), 1, 0⟩ := by
  exact ⟨rfl, rfl, rfl⟩

/-! Recoverable-action executor (TC004 per-model loop). -/

/-- C8 counterexample: in TC004, a first-item error whose message matches no
recoverable marker is counted as a failure with no reset, but the loop does
not surface the error immediately — it continues and still attempts the
second model (attempted = 2), and the aggregate error is thrown only after
the batch. -/
theorem unrecoverable_error_counterexample :
    tc004Run (fun i => if i = 0 then .thrown "boom" else .success)
      (fun _ => true) [0, 1] = (true, ⟨1, 1, 0, 2⟩) ∧
    ¬ (tc004Loop (fun i => if i = 0 then .thrown "boom" else .success)
        (fun _ => true) [0, 1] ⟨0, 0, 0, 0⟩).attempted ≤ 1 := by
  exact ⟨rfl, by decide⟩

/-- C8 (amended): on an unrecoverable error the per-model executor records a
failure after exactly one attempt of that item, invokes no reset, and then
continues with the remaining items instead of surfacing the error
immediately; the error surfaces only through the aggregate failure thrown
after the whole batch (for a singleton batch: succeeded=false,
attemptsUsed=1, recovered=false, aggregate error thrown). -/
theorem unrecoverable_error_amended (outcome : Nat → ModelOutcome)
    (recoveryOk : Nat → Bool) (msg : String) (i : Nat) (rest : List Nat)
    (st : TC004State) (hm : isRecoverableMsg msg = false)
    (ho : outcome i = .thrown msg) :
    tc004Loop outcome recoveryOk (i :: rest) st =
      tc004Loop outcome recoveryOk rest
        ⟨st.successCount, st.failureCount + 1, st.resets, st.attempted + 1⟩ ∧
    tc004Run outcome recoveryOk [i] = (true, ⟨0, 1, 0, 1⟩) := by
  constructor
  · simp only [tc004Loop, ho, hm]
    rw [if_neg (by simp [hm])]
  · rw [tc004Run]
    simp only [tc004Loop, ho, hm]
    rw [if_neg (by simp [hm])]
    simp [tc004Loop]

/-- Witness for C8 (amended) at concrete inputs. -/
theorem unrecoverable_error_amended_witness :
    tc004Loop (fun _ => .thrown "boom") (fun _ => true) [5, 6] ⟨0, 0, 0, 0⟩ =
      tc004Loop (fun _ => .thrown "boom") (fun _ => true) [6] ⟨0, 1, 0, 1⟩ ∧
    tc004Run (fun _ => .thrown "boom") (fun _ => true) [5] = (true, ⟨0, 1, 0, 1⟩) :=
  unrecoverable_error_amended (fun _ => .thrown "boom") (fun _ => true) "boom" 5 [6]
    ⟨0, 0, 0, 0⟩ (by decide) rfl

/-! Count getters. -/

/-- C9: getDocumentCount and getChunkCount are total over every possible
text content (including null, empty and non-numeric): they return the
parsed integer whenever `parseInt` succeeds, and 0 (never NaN, never an
exception) whenever it does not. -/
theorem count_getters_total (t : Option String) :
    (∀ n : Int, jsParseInt (jsTextToString t) = some n →
      getDocumentCount t = n ∧ getChunkCount t = n) ∧
    (jsParseInt (jsTextToString t) = none →
      getDocumentCount t = 0 ∧ getChunkCount t = 0) := by
  constructor
  · intro n h
    by_cases h0 : n = 0 <;>
      simp [getDocumentCount, getChunkCount, jsOrZero, h, h0]
  · intro h
    simp [getDocumentCount, getChunkCount, jsOrZero, h]

/-- Witness for C9: a parsable text (with leading blank and trailing
garbage) and a non-parsable one. -/
theorem count_getters_total_witness :
    (getDocumentCount (some " 42px") = 42 ∧ getChunkCount (some " 42px") = 42) ∧
    (getDocumentCount (some "n/a") = 0 ∧ getChunkCount (some "n/a") = 0) :=
  ⟨(count_getters_total (some " 42px")).1 42 rfl,
   (count_getters_total (some "n/a")).2 rfl⟩

/-! Ask-button guard. -/

/-- C10: clickAskButton clicks exactly when the button is enabled and
returns that Boolean (no exception on a disabled button: zero clicks and
`false` instead), and askQuestion propagates the Boolean unchanged. -/
theorem click_ask_button_guarded (enabled : Bool) :
    clickAskButton enabled = (enabled, if enabled then 1 else 0) ∧
    (askQuestion enabled).1 = (clickAskButton enabled).1 := by
  cases enabled <;> simp [clickAskButton, askQuestion]

end MiniRag
